import Mathlib

/-!
Verification of the resume-analysis service in `src/main.py`.

The service is one request handler: validate an uploaded file (name
extension, byte size), extract plain text from it (pypdf page texts or
python-docx paragraph texts), and submit the text to an external
generative-text service under a bounded retry policy.

Modelling decisions:
* Python `str` is modelled as Lean `String`; `str.endswith` is the
  (case-sensitive) suffix relation on the character sequence.
* The external parsers (pypdf `PdfReader`, python-docx `Document`) are
  opaque: an `UploadedFile` carries, besides its name and byte size, the
  outcome of handing its stream to each parser — either the list of
  per-page (per-paragraph) texts, or an exception message.
* The external generative-text call is an opaque function
  `svc : String → Nat → Except String String`, taking the resume text and
  the attempt number (the call may fail differently on each attempt).
* FastAPI turns a normal return into an HTTP 200 response and a raised
  `HTTPException e` into a response with status `e.status_code`.
* FastAPI's `HTTPException` is a subclass of Python's `Exception`, so a
  bare `except Exception:` handler also catches it; the embedding of
  `extract_text` reflects this.
-/

namespace ResumeAI

/-- Python `s.endswith(suffix)`: case-sensitive suffix test on the
character sequence of the string. -/
def endswith (s suffix : String) : Bool :=
  decide (suffix.data <:+ s.data)

/-- FastAPI `HTTPException(status_code, detail)`. -/
structure HTTPException where
  status_code : Nat
  detail : String
deriving Repr, DecidableEq

/-- An exception escaping the body of `extract_text`'s `try` block: either
an `HTTPException` raised by the validation steps, or any other library
exception, carried as its message (`str(e)`).  `HTTPException` subclasses
`Exception`, so both are caught by `except Exception`. -/
inductive Exn where
  | http (e : HTTPException)
  | other (msg : String)
deriving Repr, DecidableEq

/-- One multipart upload (`UploadFile`): its file name, the byte length of
its content (what `file.file.seek(0, 2); file.file.tell()` reports), and
the outcome of parsing its stream with each of the two external parsers:
`pdfPages` is pypdf's per-page `extract_text()` results (or the exception
message if `PdfReader` raises), `docxParas` is python-docx's per-paragraph
`text` values (or the exception message if `Document` raises). -/
structure UploadedFile where
  filename : String
  size : Nat
  pdfPages : Except String (List String)
  docxParas : Except String (List String)

/-- `MAX_FILE_SIZE = 5 * 1024 * 1024` (src/main.py line 25). -/
def MAX_FILE_SIZE : Nat := 5 * 1024 * 1024

/-- `SUPPORTED_TYPES = ['.pdf', '.docx']` (src/main.py line 26). -/
def SUPPORTED_TYPES : List String := [".pdf", ".docx"]

/-- Detail string of the 400 raised at src/main.py line 34:
`f"Unsupported file type. Supported: \x7bSUPPORTED_TYPES\x7d"`. -/
def unsupportedDetail : String :=
  "Unsupported file type. Supported: [\x27.pdf\x27, \x27.docx\x27]"

/-- Detail string of the 413 raised at src/main.py line 41:
`f"File too large. Max size: \x7bMAX_FILE_SIZE//1024//1024\x7dMB"`
(`5*1024*1024 // 1024 // 1024 = 5`). -/
def tooLargeDetail : String := "File too large. Max size: 5MB"

/-- The body of `extract_text`'s `try` block (src/main.py lines 32-49):
1. if the file name ends with no supported extension, raise
   `HTTPException(400, ...)`;
2. if the byte size exceeds `MAX_FILE_SIZE`, raise `HTTPException(413, ...)`;
3. if the name ends with `.pdf`, read pages with pypdf and return the
   page texts that are non-empty (Python truthiness), joined by `" "`;
4. otherwise read paragraphs with python-docx and return the non-empty
   paragraph texts joined by `" "`.
A parser exception propagates as `Exn.other`. -/
def extract_text_try (file : UploadedFile) : Except Exn String :=
  if ¬ (SUPPORTED_TYPES.any (fun ext => endswith file.filename ext)) then
    .error (.http ⟨400, unsupportedDetail⟩)
  else if file.size > MAX_FILE_SIZE then
    .error (.http ⟨413, tooLargeDetail⟩)
  else if endswith file.filename ".pdf" then
    match file.pdfPages with
    | .error msg => .error (.other msg)
    | .ok pages => .ok (" ".intercalate (pages.filter (fun t => t != "")))
  else
    match file.docxParas with
    | .error msg => .error (.other msg)
    | .ok paras => .ok (" ".intercalate (paras.filter (fun t => t != "")))

/-- `extract_text` (src/main.py lines 29-53).  The `except Exception` at
line 51 catches every exception raised in the `try` body — including the
`HTTPException(400)` and `HTTPException(413)` raised by the validation
steps, because `HTTPException` subclasses `Exception` — logs it, and
raises `HTTPException(500, "Failed to extract text from file")` instead. -/
def extract_text (file : UploadedFile) : Except HTTPException String :=
  match extract_text_try file with
  | .ok t => .ok t
  | .error _ => .error ⟨500, "Failed to extract text from file"⟩

/-- tenacity `wait_exponential(multiplier=1, min=4, max=10)`: the wait
after the n-th failed attempt is `multiplier * 2^n` clamped into
`[mn, mx]`. -/
def wait_exponential (multiplier mn mx : Nat) (attempt_number : Nat) : Nat :=
  Nat.max mn (Nat.min (multiplier * 2 ^ attempt_number) mx)

/-- Observable trace of one run of the retried call: the final outcome,
the attempt numbers at which the service was invoked (in order), and the
backoff waits slept between attempts (in order). -/
structure RetryTrace where
  result : Except String String
  calls : List Nat
  waits : List Nat
deriving Repr

/-- tenacity `@retry(stop=stop_after_attempt(stopAfter), wait=wait_exponential(1, 4, 10))`
(src/main.py line 56).  Attempt numbers start at 1.  After a failed
attempt `n`: if `stopAfter ≤ n` the loop stops and the failure propagates
(tenacity raises; the caller only observes that an exception escaped);
otherwise it sleeps `wait_exponential 1 4 10 n` and tries again.  `fuel`
bounds the recursion; callers pass `fuel = stopAfter` so it never runs out. -/
def retryLoop (stopAfter : Nat) (svc : Nat → Except String String)
    (attempt : Nat) (fuel : Nat) : RetryTrace :=
  match fuel with
  | 0 => ⟨.error "out of fuel", [], []⟩
  | fuel + 1 =>
    match svc attempt with
    | .ok r => ⟨.ok r, [attempt], []⟩
    | .error e =>
      if stopAfter ≤ attempt then ⟨.error e, [attempt], []⟩
      else
        let rest := retryLoop stopAfter svc (attempt + 1) fuel
        ⟨rest.result, attempt :: rest.calls, wait_exponential 1 4 10 attempt :: rest.waits⟩

/-- `analyze_with_gemini` (src/main.py lines 56-73) under its retry
decorator.  The body builds the prompt from `resume_text` and calls the
external model once; its inner `try/except` logs the error and re-raises
it unchanged, so one attempt is exactly `svc resume_text n`. -/
def analyze_with_gemini (svc : String → Nat → Except String String)
    (resume_text : String) : RetryTrace :=
  retryLoop 3 (svc resume_text) 1 3

/-- The JSON body returned by the `/analyze` endpoint
(src/main.py lines 84-89 and 92-97). -/
structure AnalysisResponse where
  filename : String
  analysis : String
  llm_source : String
  status : String
deriving Repr, DecidableEq

/-- `analyze_resume` (src/main.py lines 77-103): extract the text (an
`HTTPException` from extraction is re-raised at lines 99-100); on
extraction success, run the retried analysis; if it returns, answer the
success body; if it raises (retries exhausted), answer the degraded
error-status body.  The final `except Exception` at lines 101-103 is
unreachable in this model: every non-HTTP exception of the pipeline is
already absorbed by `extract_text` or by the inner `except` at line 90. -/
def analyze_resume (svc : String → Nat → Except String String)
    (file : UploadedFile) : Except HTTPException AnalysisResponse :=
  match extract_text file with
  | .error he => .error he
  | .ok text =>
    match (analyze_with_gemini svc text).result with
    | .ok feedback =>
      .ok ⟨file.filename, feedback, "Gemini-1.5-Flash", "success"⟩
    | .error _ =>
      .ok ⟨file.filename, "Failed to analyze resume. Please try again later.",
           "None", "error"⟩

/-- The HTTP status the caller observes: 200 for a normal return,
`e.status_code` for a raised `HTTPException e`. -/
def httpStatus (r : Except HTTPException AnalysisResponse) : Nat :=
  match r with
  | .ok _ => 200
  | .error e => e.status_code

/-- A service that fails on every attempt. -/
def failSvc : String → Nat → Except String String :=
  fun _ _ => .error "service unavailable"

/-- A service that succeeds on every attempt with a fixed answer. -/
def okSvc : String → Nat → Except String String :=
  fun _ _ => .ok "Looks good."

/-- An upload whose name has no supported extension; both parsers would
reject its stream. -/
def txtUpload : UploadedFile :=
  ⟨"resume.txt", 100, .error "invalid pdf header", .error "not a zip archive"⟩

/-- A PDF upload one byte over the size limit; its stream parses fine. -/
def bigPdfUpload : UploadedFile :=
  ⟨"resume.pdf", 5 * 1024 * 1024 + 1, .ok ["some text"], .error "not a zip archive"⟩

/-- A small valid PDF upload with two pages of text. -/
def smallPdfUpload : UploadedFile :=
  ⟨"resume.pdf", 2048, .ok ["Jane Doe", "Engineer"], .error "not a zip archive"⟩

/-- A small valid DOCX upload with an empty paragraph between two
non-empty ones. -/
def smallDocxUpload : UploadedFile :=
  ⟨"resume.docx", 2048, .error "invalid pdf header", .ok ["Jane Doe", "", "Engineer"]⟩

/-- A PDF-named upload whose stream the PDF parser rejects. -/
def corruptPdfUpload : UploadedFile :=
  ⟨"resume.pdf", 2048, .error "EOF marker not found", .error "not a zip archive"⟩

/-- An upload named with the upper-case extension `.PDF`; its stream
parses fine as a PDF. -/
def upperPdfUpload : UploadedFile :=
  ⟨"resume.PDF", 2048, .ok ["Jane Doe"], .error "not a zip archive"⟩

/-- A valid PDF upload whose pages all yield empty text. -/
def emptyPdfUpload : UploadedFile :=
  ⟨"resume.pdf", 2048, .ok ["", ""], .error "not a zip archive"⟩

theorem endswith_eq_true {s suffix : String} :
    endswith s suffix = true ↔ suffix.data <:+ s.data := by
  simp [endswith]

theorem endswith_disjoint (s a b : String) (ha : endswith s a = true)
    (h1 : ¬ a.data <:+ b.data) (h2 : ¬ b.data <:+ a.data) :
    endswith s b = false := by
  rw [endswith, decide_eq_false_iff_not]
  intro hb
  rw [endswith_eq_true] at ha
  rcases List.suffix_or_suffix_of_suffix ha hb with h | h
  · exact h1 h
  · exact h2 h

/-- C1: the claim says an upload whose name ends in no supported extension
is rejected with a 400-class error that the caller observes.  At the
concrete upload `resume.txt`, the `try` body does raise
`HTTPException(400, "Unsupported file type. ...")`, but the
`except Exception` at src/main.py line 51 catches it (FastAPI's
`HTTPException` subclasses `Exception`) and replaces it with a generic
500, so the status the caller observes is 500, not 400. -/
theorem C1_unsupported_type_observed_500_not_400 :
    extract_text_try txtUpload = .error (.http ⟨400, unsupportedDetail⟩) ∧
    extract_text txtUpload = .error ⟨500, "Failed to extract text from file"⟩ ∧
    analyze_resume failSvc txtUpload
      = .error ⟨500, "Failed to extract text from file"⟩ ∧
    httpStatus (analyze_resume failSvc txtUpload) = 500 :=
  ⟨rfl, rfl, rfl, rfl⟩

/-- C2: the claim says an upload whose content exceeds 5 MiB is rejected
with a 413-class error that the caller observes.  At the concrete
5 MiB + 1 upload, the `try` body does raise
`HTTPException(413, "File too large. Max size: 5MB")`, but the
`except Exception` at src/main.py line 51 catches it and replaces it with
a generic 500, so the status the caller observes is 500, not 413. -/
theorem C2_oversized_observed_500_not_413 :
    extract_text_try bigPdfUpload = .error (.http ⟨413, tooLargeDetail⟩) ∧
    extract_text bigPdfUpload = .error ⟨500, "Failed to extract text from file"⟩ ∧
    analyze_resume failSvc bigPdfUpload
      = .error ⟨500, "Failed to extract text from file"⟩ ∧
    httpStatus (analyze_resume failSvc bigPdfUpload) = 500 :=
  ⟨rfl, rfl, rfl, rfl⟩

/-- C3: if extraction succeeds and the analysis service fails on every
one of the 3 attempts, the endpoint does not raise: it returns an HTTP
200 response whose body has the uploaded filename, status `"error"`,
`llm_source "None"`, and the non-empty placeholder analysis string. -/
theorem C3_analysis_exhaustion_degrades_to_200_error_body
    (svc : String → Nat → Except String String)
    (file : UploadedFile) (text : String)
    (hx : extract_text file = .ok text)
    (hf : ∀ n, n ≤ 3 → ∃ e, svc text n = Except.error e) :
    analyze_resume svc file =
      .ok ⟨file.filename, "Failed to analyze resume. Please try again later.",
           "None", "error"⟩ ∧
    httpStatus (analyze_resume svc file) = 200 ∧
    ∀ r, analyze_resume svc file = Except.ok r → r.analysis ≠ "" := by
  obtain ⟨e1, h1⟩ := hf 1 (by norm_num)
  obtain ⟨e2, h2⟩ := hf 2 (by norm_num)
  obtain ⟨e3, h3⟩ := hf 3 (by norm_num)
  have hmain : analyze_resume svc file =
      .ok ⟨file.filename, "Failed to analyze resume. Please try again later.",
           "None", "error"⟩ := by
    simp [analyze_resume, hx, analyze_with_gemini, retryLoop, h1, h2, h3]
  refine ⟨hmain, by simp [hmain, httpStatus], ?_⟩
  intro r hr
  rw [hmain] at hr
  injection hr with hr
  subst hr
  simp

/-- C3 witness: a concrete small PDF with an always-failing service. -/
theorem C3_witness :
    analyze_resume failSvc smallPdfUpload =
      Except.ok ⟨"resume.pdf", "Failed to analyze resume. Please try again later.",
                 "None", "error"⟩ ∧
    httpStatus (analyze_resume failSvc smallPdfUpload) = 200 :=
  ⟨(C3_analysis_exhaustion_degrades_to_200_error_body failSvc smallPdfUpload
      "Jane Doe Engineer" rfl (fun _ _ => ⟨"service unavailable", rfl⟩)).1,
   (C3_analysis_exhaustion_degrades_to_200_error_body failSvc smallPdfUpload
      "Jane Doe Engineer" rfl (fun _ _ => ⟨"service unavailable", rfl⟩)).2.1⟩

/-- C4: for a valid PDF upload all of whose pages yield non-empty text,
the extracted text is the page texts joined by single spaces, in page
order (no page is skipped). -/
theorem C4_pdf_extraction_joins_all_pages (file : UploadedFile) (pages : List String)
    (h1 : endswith file.filename ".pdf" = true)
    (h2 : file.size ≤ MAX_FILE_SIZE)
    (h3 : file.pdfPages = .ok pages)
    (h4 : ∀ p ∈ pages, p ≠ "") :
    extract_text file = .ok (" ".intercalate pages) := by
  have hsz : ¬ (file.size > MAX_FILE_SIZE) := by omega
  have hfilter : pages.filter (fun t => t != "") = pages :=
    List.filter_eq_self.mpr (fun a ha => by simpa using h4 a ha)
  simp [extract_text, extract_text_try, SUPPORTED_TYPES, h1, hsz, h3, hfilter]

/-- C4 witness: a concrete two-page PDF. -/
theorem C4_witness :
    extract_text smallPdfUpload = Except.ok (" ".intercalate ["Jane Doe", "Engineer"]) :=
  C4_pdf_extraction_joins_all_pages smallPdfUpload ["Jane Doe", "Engineer"]
    (by decide) (by decide) rfl (by decide)

/-- C5: for a valid DOCX upload, the extracted text is the single-space
join of exactly the non-empty paragraph texts: the empty ones are
excluded, and the non-empty ones keep their original order (the filtered
list is a sublist of the paragraph list). -/
theorem C5_docx_extraction_skips_empty_paragraphs
    (file : UploadedFile) (paras : List String)
    (h1 : endswith file.filename ".docx" = true)
    (h2 : file.size ≤ MAX_FILE_SIZE)
    (h3 : file.docxParas = .ok paras) :
    extract_text file = .ok (" ".intercalate (paras.filter (fun t => t != ""))) ∧
    (paras.filter (fun t => t != "")).Sublist paras ∧
    ∀ t ∈ paras.filter (fun t => t != ""), t ≠ "" := by
  have hpdf : endswith file.filename ".pdf" = false :=
    endswith_disjoint file.filename ".docx" ".pdf" h1 (by decide) (by decide)
  have hsz : ¬ (file.size > MAX_FILE_SIZE) := by omega
  refine ⟨?_, List.filter_sublist _, ?_⟩
  · simp [extract_text, extract_text_try, SUPPORTED_TYPES, h1, hpdf, hsz, h3]
  · intro t ht
    simpa using (List.mem_filter.mp ht).2

/-- C5 witness: a concrete DOCX with an empty middle paragraph. -/
theorem C5_witness :
    extract_text smallDocxUpload
      = Except.ok (" ".intercalate
          ((["Jane Doe", "", "Engineer"] : List String).filter (fun t => t != ""))) ∧
    ((["Jane Doe", "", "Engineer"] : List String).filter (fun t => t != "")).Sublist
      ["Jane Doe", "", "Engineer"] ∧
    ∀ t ∈ (["Jane Doe", "", "Engineer"] : List String).filter (fun t => t != ""), t ≠ "" :=
  C5_docx_extraction_skips_empty_paragraphs smallDocxUpload ["Jane Doe", "", "Engineer"]
    (by decide) (by decide) rfl

/-- C6: every exception the extraction step raises (any parser failure,
message `msg`) is caught and surfaced to the caller as the generic
HTTP 500 `"Failed to extract text from file"`; the response is the same
constant for every `msg`, so the original exception detail is not leaked
in the body (it only goes to the log). -/
theorem C6_extraction_failure_opaque_500
    (svc : String → Nat → Except String String) (file : UploadedFile) (msg : String)
    (h : extract_text_try file = .error (.other msg)) :
    extract_text file = .error ⟨500, "Failed to extract text from file"⟩ ∧
    analyze_resume svc file = .error ⟨500, "Failed to extract text from file"⟩ ∧
    httpStatus (analyze_resume svc file) = 500 := by
  refine ⟨?_, ?_, ?_⟩ <;> simp [extract_text, analyze_resume, h, httpStatus]

/-- C6 witness: a concrete corrupt PDF whose parser raises
`"EOF marker not found"`. -/
theorem C6_witness :
    extract_text corruptPdfUpload = .error ⟨500, "Failed to extract text from file"⟩ ∧
    analyze_resume failSvc corruptPdfUpload
      = .error ⟨500, "Failed to extract text from file"⟩ ∧
    httpStatus (analyze_resume failSvc corruptPdfUpload) = 500 :=
  C6_extraction_failure_opaque_500 failSvc corruptPdfUpload "EOF marker not found" rfl

/-- C7: for every service behaviour, the analysis call is attempted at
most 3 times; the attempts are sequential (attempt numbers 1, 2, ...);
each backoff wait slept after attempt n equals
`wait_exponential 1 4 10 n` — multiplier 1, clamped below by 4 and above
by 10; and if all 3 attempts fail, the run ends in failure with exactly
the attempts 1, 2, 3 made and no further attempt. -/
theorem C7_retry_at_most_three_sequential_attempts
    (svc : String → Nat → Except String String) (text : String) :
    (analyze_with_gemini svc text).calls.length ≤ 3 ∧
    (analyze_with_gemini svc text).calls
      = List.range' 1 (analyze_with_gemini svc text).calls.length ∧
    (analyze_with_gemini svc text).waits
      = (analyze_with_gemini svc text).calls.dropLast.map (wait_exponential 1 4 10) ∧
    ((∀ n, n ≤ 3 → ∃ e, svc text n = Except.error e) →
      ∃ e, (analyze_with_gemini svc text).result = Except.error e ∧
        (analyze_with_gemini svc text).calls = [1, 2, 3]) := by
  cases h1 : svc text 1 with
  | ok r1 =>
    have ht : analyze_with_gemini svc text = ⟨.ok r1, [1], []⟩ := by
      simp [analyze_with_gemini, retryLoop, h1]
    have hc : (analyze_with_gemini svc text).calls = [1] := by rw [ht]
    have hw : (analyze_with_gemini svc text).waits = [] := by rw [ht]
    refine ⟨by rw [hc]; decide, by rw [hc]; decide, by rw [hw, hc]; decide, ?_⟩
    intro hf
    obtain ⟨e, he⟩ := hf 1 (by norm_num)
    rw [h1] at he
    exact absurd he (by simp)
  | error e1 =>
    cases h2 : svc text 2 with
    | ok r2 =>
      have ht : analyze_with_gemini svc text
          = ⟨.ok r2, [1, 2], [wait_exponential 1 4 10 1]⟩ := by
        simp [analyze_with_gemini, retryLoop, h1, h2]
      have hc : (analyze_with_gemini svc text).calls = [1, 2] := by rw [ht]
      have hw : (analyze_with_gemini svc text).waits = [wait_exponential 1 4 10 1] := by
        rw [ht]
      refine ⟨by rw [hc]; decide, by rw [hc]; decide, by rw [hw, hc]; decide, ?_⟩
      intro hf
      obtain ⟨e, he⟩ := hf 2 (by norm_num)
      rw [h2] at he
      exact absurd he (by simp)
    | error e2 =>
      cases h3 : svc text 3 with
      | ok r3 =>
        have ht : analyze_with_gemini svc text
            = ⟨.ok r3, [1, 2, 3],
               [wait_exponential 1 4 10 1, wait_exponential 1 4 10 2]⟩ := by
          simp [analyze_with_gemini, retryLoop, h1, h2, h3]
        have hc : (analyze_with_gemini svc text).calls = [1, 2, 3] := by rw [ht]
        have hw : (analyze_with_gemini svc text).waits
            = [wait_exponential 1 4 10 1, wait_exponential 1 4 10 2] := by rw [ht]
        refine ⟨by rw [hc]; decide, by rw [hc]; decide, by rw [hw, hc]; decide, ?_⟩
        intro hf
        obtain ⟨e, he⟩ := hf 3 (by norm_num)
        rw [h3] at he
        exact absurd he (by simp)
      | error e3 =>
        have ht : analyze_with_gemini svc text
            = ⟨.error e3, [1, 2, 3],
               [wait_exponential 1 4 10 1, wait_exponential 1 4 10 2]⟩ := by
          simp [analyze_with_gemini, retryLoop, h1, h2, h3]
        have hc : (analyze_with_gemini svc text).calls = [1, 2, 3] := by rw [ht]
        have hw : (analyze_with_gemini svc text).waits
            = [wait_exponential 1 4 10 1, wait_exponential 1 4 10 2] := by rw [ht]
        exact ⟨by rw [hc]; decide, by rw [hc]; decide, by rw [hw, hc]; decide,
          fun _ => ⟨e3, by rw [ht], by rw [hc]⟩⟩

/-- C7 witness: applied to the always-failing service on the empty text. -/
theorem C7_witness :
    (analyze_with_gemini failSvc "").calls.length ≤ 3 ∧
    (analyze_with_gemini failSvc "").calls
      = List.range' 1 (analyze_with_gemini failSvc "").calls.length ∧
    (analyze_with_gemini failSvc "").waits
      = (analyze_with_gemini failSvc "").calls.dropLast.map (wait_exponential 1 4 10) ∧
    ((∀ n, n ≤ 3 → ∃ e, failSvc "" n = Except.error e) →
      ∃ e, (analyze_with_gemini failSvc "").result = Except.error e ∧
        (analyze_with_gemini failSvc "").calls = [1, 2, 3]) :=
  C7_retry_at_most_three_sequential_attempts failSvc ""

/-- C8: when extraction succeeds with `text` and the retried analysis
returns `feedback`, the endpoint returns exactly the body
`(filename, feedback, "Gemini-1.5-Flash", "success")` with HTTP 200. -/
theorem C8_success_response_shape
    (svc : String → Nat → Except String String) (file : UploadedFile)
    (text feedback : String)
    (hx : extract_text file = .ok text)
    (ha : (analyze_with_gemini svc text).result = .ok feedback) :
    analyze_resume svc file
      = .ok ⟨file.filename, feedback, "Gemini-1.5-Flash", "success"⟩ ∧
    httpStatus (analyze_resume svc file) = 200 := by
  constructor <;> simp [analyze_resume, hx, ha, httpStatus]

/-- C8 witness: a concrete PDF with an always-succeeding service. -/
theorem C8_witness :
    analyze_resume okSvc smallPdfUpload
      = Except.ok ⟨"resume.pdf", "Looks good.", "Gemini-1.5-Flash", "success"⟩ ∧
    httpStatus (analyze_resume okSvc smallPdfUpload) = 200 :=
  C8_success_response_shape okSvc smallPdfUpload "Jane Doe Engineer" "Looks good."
    rfl rfl

/-- C9: the extension check is case-sensitive.  Let `v` be any upper- or
mixed-case variant of a supported extension: `v` differs from the
extension but lowercases to it character by character (`Char.toLower`
models Python `str.lower` on these ASCII suffixes).  Then a filename
ending in `v` ends in no lower-case supported extension, so the upload
takes the unsupported-type branch (the 400 is raised in the `try` body)
and the request is rejected — the handler errors for every possible
parser outcome, so the file is never extracted. -/
theorem C9_extension_check_case_sensitive
    (svc : String → Nat → Except String String) (file : UploadedFile)
    (v ext : String)
    (hext : ext ∈ SUPPORTED_TYPES)
    (hne : v ≠ ext)
    (hlower : v.data.map Char.toLower = ext.data)
    (hend : endswith file.filename v = true) :
    (∀ e ∈ SUPPORTED_TYPES, endswith file.filename e = false) ∧
    extract_text_try file = .error (.http ⟨400, unsupportedDetail⟩) ∧
    extract_text file = .error ⟨500, "Failed to extract text from file"⟩ ∧
    analyze_resume svc file = .error ⟨500, "Failed to extract text from file"⟩ := by
  have hvlen : v.data.length = ext.data.length := by
    rw [← hlower, List.length_map]
  have hvs : v.data <:+ file.filename.data := endswith_eq_true.mp hend
  have hnd : v.data ≠ ext.data := fun hd => hne (String.ext hd)
  have hnod : ∀ e ∈ SUPPORTED_TYPES, endswith file.filename e = false := by
    intro e he
    rw [endswith, decide_eq_false_iff_not]
    intro hes
    simp only [SUPPORTED_TYPES, List.mem_cons, List.not_mem_nil, or_false] at he hext
    rcases List.suffix_or_suffix_of_suffix hvs hes with hcase | hcase
    · have hm := List.IsSuffix.map Char.toLower hcase
      rw [hlower] at hm
      rcases hext with rfl | rfl <;> rcases he with rfl | rfl
      · exact hnd (hcase.eq_of_length hvlen)
      · revert hm; decide
      · revert hm; decide
      · exact hnd (hcase.eq_of_length hvlen)
    · have hm := List.IsSuffix.map Char.toLower hcase
      rw [hlower] at hm
      rcases hext with rfl | rfl <;> rcases he with rfl | rfl
      · exact hnd ((hcase.eq_of_length hvlen.symm).symm)
      · revert hm; decide
      · revert hm; decide
      · exact hnd ((hcase.eq_of_length hvlen.symm).symm)
  have hpdf : endswith file.filename ".pdf" = false :=
    hnod ".pdf" (by simp [SUPPORTED_TYPES])
  have hdocx : endswith file.filename ".docx" = false :=
    hnod ".docx" (by simp [SUPPORTED_TYPES])
  refine ⟨hnod, ?_, ?_, ?_⟩ <;>
    simp [extract_text, extract_text_try, analyze_resume, SUPPORTED_TYPES, hpdf, hdocx]

/-- C9 witness: the concrete upload named `resume.PDF` — whose name ends
in the variant `.PDF` of `.pdf` and whose stream would parse fine as a
PDF — ends in neither lower-case supported extension and is rejected. -/
theorem C9_witness :
    endswith upperPdfUpload.filename ".pdf" = false ∧
    endswith upperPdfUpload.filename ".docx" = false ∧
    extract_text_try upperPdfUpload = .error (.http ⟨400, unsupportedDetail⟩) ∧
    extract_text upperPdfUpload = .error ⟨500, "Failed to extract text from file"⟩ ∧
    analyze_resume failSvc upperPdfUpload
      = .error ⟨500, "Failed to extract text from file"⟩ :=
  ⟨(C9_extension_check_case_sensitive failSvc upperPdfUpload ".PDF" ".pdf"
      (by decide) (by decide) (by decide) (by decide)).1 ".pdf" (by decide),
   (C9_extension_check_case_sensitive failSvc upperPdfUpload ".PDF" ".pdf"
      (by decide) (by decide) (by decide) (by decide)).1 ".docx" (by decide),
   (C9_extension_check_case_sensitive failSvc upperPdfUpload ".PDF" ".pdf"
      (by decide) (by decide) (by decide) (by decide)).2.1,
   (C9_extension_check_case_sensitive failSvc upperPdfUpload ".PDF" ".pdf"
      (by decide) (by decide) (by decide) (by decide)).2.2.1,
   (C9_extension_check_case_sensitive failSvc upperPdfUpload ".PDF" ".pdf"
      (by decide) (by decide) (by decide) (by decide)).2.2.2⟩

/-- C10: a valid document from which no text is extractable (every PDF
page, or every DOCX paragraph, yields empty text) is not an error:
extraction returns the empty string, and the endpoint's response is
exactly what the analysis stage produces on the input `""` — the empty
string is still submitted to the analysis step. -/
theorem C10_empty_extraction_submitted_to_analysis
    (svc : String → Nat → Except String String) (file : UploadedFile)
    (hsz : file.size ≤ MAX_FILE_SIZE)
    (h : (endswith file.filename ".pdf" = true ∧
          ∃ pages, file.pdfPages = .ok pages ∧ ∀ p ∈ pages, p = "") ∨
         (endswith file.filename ".docx" = true ∧
          ∃ paras, file.docxParas = .ok paras ∧ ∀ p ∈ paras, p = "")) :
    extract_text file = .ok "" ∧
    analyze_resume svc file =
      (match (analyze_with_gemini svc "").result with
       | .ok feedback => .ok ⟨file.filename, feedback, "Gemini-1.5-Flash", "success"⟩
       | .error _ => .ok ⟨file.filename,
           "Failed to analyze resume. Please try again later.", "None", "error"⟩) := by
  have hsz2 : ¬ (file.size > MAX_FILE_SIZE) := by omega
  have hx : extract_text file = .ok "" := by
    rcases h with ⟨h1, pages, h3, h4⟩ | ⟨h1, paras, h3, h4⟩
    · have hfilter : pages.filter (fun t => t != "") = [] := by
        rw [List.filter_eq_nil_iff]
        intro a ha
        simpa using h4 a ha
      simp [extract_text, extract_text_try, SUPPORTED_TYPES, h1, hsz2, h3, hfilter,
        String.intercalate]
    · have hpdf : endswith file.filename ".pdf" = false :=
        endswith_disjoint file.filename ".docx" ".pdf" h1 (by decide) (by decide)
      have hfilter : paras.filter (fun t => t != "") = [] := by
        rw [List.filter_eq_nil_iff]
        intro a ha
        simpa using h4 a ha
      simp [extract_text, extract_text_try, SUPPORTED_TYPES, h1, hpdf, hsz2, h3, hfilter,
        String.intercalate]
  refine ⟨hx, ?_⟩
  rw [analyze_resume, hx]

/-- C10 witness: a concrete PDF whose two pages both yield empty text,
with the always-failing service. -/
theorem C10_witness :
    extract_text emptyPdfUpload = Except.ok "" ∧
    analyze_resume failSvc emptyPdfUpload =
      Except.ok ⟨"resume.pdf", "Failed to analyze resume. Please try again later.",
                 "None", "error"⟩ :=
  ⟨(C10_empty_extraction_submitted_to_analysis failSvc emptyPdfUpload (by decide)
      (Or.inl ⟨by decide, ["", ""], rfl, by decide⟩)).1,
   (C10_empty_extraction_submitted_to_analysis failSvc emptyPdfUpload (by decide)
      (Or.inl ⟨by decide, ["", ""], rfl, by decide⟩)).2⟩

end ResumeAI
